import Mathlib

/-!
Shallow embedding of `src/theme/DocSidebarItem/index.js` of the
`prisma.pan.dev` documentation-site theme: a sidebar item dispatcher,
the recursive active-path matcher, the collapsible category state
machine, the link renderer's method classification, and the
version-dropdown widget's mobile branch.

JS values that can be a string, an object, or absent are modelled
explicitly; `undefined`/missing fields become `Option.none`.
-/

/-- Model of the JS `customProps` field of a sidebar item.  In the data it
is either a plain string (the dispatcher compares it to the string
`"versioned"` with `===`) or an object that may carry a `method` field
(read by the link renderer as `customProps.method`). -/
inductive CustomProps where
  | strVal (s : String)
  | objVal (method : Option String)
deriving DecidableEq, Repr

/-- Model of one sidebar item, the tagged union dispatched on `item.type`:
`link` carries `label`, `href` and an optional `customProps`; `category`
carries `label`, `items`, `collapsible` and the initial `collapsed` flag;
`other` stands for an item whose `type` string (carried as `ty`) is
neither `"category"` nor `"link"`, i.e. the `switch` statement's
`default`-only case. -/
inductive SidebarItem where
  | link (label href : String) (customProps : Option CustomProps)
  | category (label : String) (items : List SidebarItem)
      (collapsible collapsed : Bool)
  | other (ty label href : String) (customProps : Option CustomProps)

/-- The possible outcomes of the `DocSidebarItem` dispatcher: render
nothing (`null`), delegate to `DocSidebarItemCategory`, to
`DocSidebarVersionDropdown`, or to `DocSidebarItemLink`. -/
inductive Dispatch where
  | nothing
  | categoryComponent
  | versionDropdown
  | linkRenderer
deriving DecidableEq, Repr

/-- The `DocSidebarItem` dispatcher (`switch (item.type)`):
a `category` with zero items returns `null`, a non-empty `category`
delegates to the category component; a `link` delegates to the version
dropdown exactly when `item.customProps === "versioned"` (strict equality
against the string) and otherwise falls through to the default link
renderer, as does every unrecognized `type`. -/
def DocSidebarItem : SidebarItem → Dispatch
  | SidebarItem.category _ items _ _ =>
      if items.length = 0 then Dispatch.nothing else Dispatch.categoryComponent
  | SidebarItem.link _ _ customProps =>
      if customProps = some (CustomProps.strVal "versioned") then
        Dispatch.versionDropdown
      else
        Dispatch.linkRenderer
  | SidebarItem.other _ _ _ _ => Dispatch.linkRenderer

mutual

/-- `isActiveSidebarItem(item, activePath)`: a link is active when
`isSamePath(item.href, activePath)` holds for the caller-supplied
path-equality predicate `samePath`; a category is active when some
`subItem` of its `items` is active (`item.items.some(...)`); any other
item is not active. -/
def isActiveSidebarItem (samePath : String → String → Bool) :
    SidebarItem → String → Bool
  | SidebarItem.link _ href _, activePath => samePath href activePath
  | SidebarItem.category _ items _ _, activePath =>
      isActiveSidebarItemList samePath items activePath
  | SidebarItem.other _ _ _ _, _ => false

/-- The `items.some(...)` traversal of `isActiveSidebarItem`, written as
explicit recursion over the list. -/
def isActiveSidebarItemList (samePath : String → String → Bool) :
    List SidebarItem → String → Bool
  | [], _ => false
  | i :: rest, activePath =>
      isActiveSidebarItem samePath i activePath
        || isActiveSidebarItemList samePath rest activePath

end

mutual

/-- The hrefs of the links reachable from an item by descending through
category `items`: a link contributes its own href, a category the links
reachable from its children, anything else nothing. -/
def reachableLinks : SidebarItem → List String
  | SidebarItem.link _ href _ => [href]
  | SidebarItem.category _ items _ _ => reachableLinksList items
  | SidebarItem.other _ _ _ _ => []

/-- `reachableLinks` accumulated over a list of items, in order. -/
def reachableLinksList : List SidebarItem → List String
  | [] => []
  | i :: rest => reachableLinks i ++ reachableLinksList rest

end

/-- The explicit list recursion agrees with `List.any`, i.e. with the
source's `items.some((subItem) => isActiveSidebarItem(subItem, activePath))`. -/
theorem isActiveSidebarItemList_eq_any (samePath : String → String → Bool)
    (items : List SidebarItem) (activePath : String) :
    isActiveSidebarItemList samePath items activePath
      = items.any (fun i => isActiveSidebarItem samePath i activePath) := by
  induction items with
  | nil => simp [isActiveSidebarItemList]
  | cons i rest ih => simp [isActiveSidebarItemList, ih]

mutual

/-- An item is active exactly when some link reachable from it has an
href the predicate matches against the active path. -/
theorem isActive_iff_reachable (samePath : String → String → Bool)
    (item : SidebarItem) (p : String) :
    isActiveSidebarItem samePath item p = true
      ↔ ∃ h ∈ reachableLinks item, samePath h p = true := by
  match item with
  | SidebarItem.link _ href _ =>
      simp [isActiveSidebarItem, reachableLinks]
  | SidebarItem.other _ _ _ _ =>
      simp [isActiveSidebarItem, reachableLinks]
  | SidebarItem.category _ items _ _ =>
      have hl := isActiveList_iff_reachable samePath items p
      simpa [isActiveSidebarItem, reachableLinks] using hl

/-- List version of `isActive_iff_reachable`. -/
theorem isActiveList_iff_reachable (samePath : String → String → Bool)
    (items : List SidebarItem) (p : String) :
    isActiveSidebarItemList samePath items p = true
      ↔ ∃ h ∈ reachableLinksList items, samePath h p = true := by
  match items with
  | [] => simp [isActiveSidebarItemList, reachableLinksList]
  | i :: rest =>
      have h1 := isActive_iff_reachable samePath i p
      have h2 := isActiveList_iff_reachable samePath rest p
      simp only [isActiveSidebarItemList, reachableLinksList,
        Bool.or_eq_true, h1, h2, List.mem_append]
      constructor
      · rintro (⟨h, hm, hp⟩ | ⟨h, hm, hp⟩)
        · exact ⟨h, Or.inl hm, hp⟩
        · exact ⟨h, Or.inr hm, hp⟩
      · rintro ⟨h, hm | hm, hp⟩
        · exact Or.inl ⟨h, hm, hp⟩
        · exact Or.inr ⟨h, hm, hp⟩

end

/-- One run of the `useAutoExpandActiveCategory` effect, as the new value
of `collapsed`.  `wasActive` is the value returned by `usePrevious`
(`none` on the first render, where the previous value is `undefined`).
The effect computes `justBecameActive = isActive && !wasActive` and calls
`setCollapsed(false)` exactly when `justBecameActive && collapsed`. -/
def useAutoExpandActiveCategory (isActive : Bool) (wasActive : Option Bool)
    (collapsed : Bool) : Bool :=
  if (isActive && !(wasActive.getD false)) && collapsed then false
  else collapsed

/-- The `onClick` handler of the category header, as the new value of
`collapsed`: when `collapsible` it calls `toggleCollapsed()` (flipping the
state); otherwise the handler is `undefined` and a click leaves the state
unchanged. -/
def categoryHeaderClick (collapsible collapsed : Bool) : Bool :=
  if collapsible then !collapsed else collapsed

/-- The `initialState` thunk `DocSidebarItemCategory` passes to
`useCollapsible`: `false` (expanded) when not collapsible, else `false`
when the category is active, else the data's `item.collapsed` flag.
For a non-category item (which the component never receives, since the
dispatcher routes only categories here) it returns `false`. -/
def categoryInitialCollapsed (samePath : String → String → Bool)
    (item : SidebarItem) (activePath : String) : Bool :=
  match item with
  | SidebarItem.category _ _ collapsible collapsed =>
      if !collapsible then false
      else if isActiveSidebarItem samePath item activePath then false
      else collapsed
  | _ => false

/-- The class list `clsx` produces for the category header anchor:
`menu__link` always, `menu__link--sublist` when collapsible,
`menu__link--active` when `collapsible && isActive`, and the local
`menuLinkText` style when not collapsible. -/
def categoryHeaderClasses (collapsible isActive : Bool) : List String :=
  ["menu__link"]
    ++ (if collapsible then ["menu__link--sublist"] else [])
    ++ (if collapsible && isActive then ["menu__link--active"] else [])
    ++ (if !collapsible then ["menuLinkText"] else [])

/-- The header class list of `DocSidebarItemCategory` for a concrete item
and active path, with `isActive = isActiveSidebarItem(item, activePath)`. -/
def docSidebarItemCategoryHeaderClasses (samePath : String → String → Bool)
    (item : SidebarItem) (activePath : String) : List String :=
  categoryHeaderClasses
    (match item with
     | SidebarItem.category _ _ collapsible _ => collapsible
     | _ => false)
    (isActiveSidebarItem samePath item activePath)

/-- JS truthiness of a `customProps` value: `undefined` and the empty
string are falsy, a non-empty string and any object are truthy. -/
def customPropsTruthy : Option CustomProps → Bool
  | none => false
  | some (CustomProps.strVal s) => !(s == "")
  | some (CustomProps.objVal _) => true

/-- Reading `customProps.method`: on a string value the property access
yields `undefined` (`none`); on an object it yields the `method` field. -/
def customPropsMethod : CustomProps → Option String
  | CustomProps.strVal _ => none
  | CustomProps.objVal m => m

/-- `DocSidebarItemLink`'s method classification:
`var method = "noop"; if (customProps) { method = customProps.method; }`.
`none` models `undefined` (which `clsx` drops from the class list). -/
def linkMethod (customProps : Option CustomProps) : Option String :=
  match customProps with
  | none => some "noop"
  | some cp =>
      if customPropsTruthy (some cp) then customPropsMethod cp
      else some "noop"

/-- The class list `clsx` produces for a rendered link:
`menu__link`, then the method classification (dropped when `undefined`),
then `menu__link--active` when active. -/
def docSidebarItemLinkClasses (samePath : String → String → Bool)
    (item : SidebarItem) (activePath : String) : List String :=
  match item with
  | SidebarItem.link _ _ customProps =>
      ["menu__link"] ++ (linkMethod customProps).toList
        ++ (if isActiveSidebarItem samePath item activePath then
              ["menu__link--active"]
            else [])
  | _ => []

/-- A version descriptor from `siteConfig.customFields.api_versions`. -/
structure VersionDescriptor where
  version : String
  label : String
  «to» : String

/-- `s.split("/")[2]`, the expression the mobile branch evaluates on both
the current `window.location.pathname` and the resolved version URL
(`none` models an out-of-range index, i.e. `undefined`). -/
def splitSecond (s : String) : Option String :=
  (s.splitOn "/")[2]?

/-- The active test of one mobile version button:
`window.location.pathname.split("/")[2] == useBaseUrl(Ver.to).split("/")[2]`,
where `resolve` is the base-URL resolver `useBaseUrl`.  JS `==` on these
operands is string equality, with `undefined == undefined` true and
`string == undefined` false, which is `Option` equality. -/
def mobileVersionButtonActive (resolve : String → String)
    (pathname : String) (verTo : String) : Bool :=
  splitSecond pathname == splitSecond (resolve verTo)

/-- The mobile branch of `DocSidebarVersionDropdown`: one button per
entry of `api_versions`, in order, each carrying its label, its resolved
target `useBaseUrl(Ver.to)`, and whether the active-tab class is
applied. -/
def docSidebarVersionDropdownMobile (resolve : String → String)
    (pathname : String) (api_versions : List VersionDescriptor) :
    List (String × String × Bool) :=
  api_versions.map fun v =>
    (v.label, resolve v.«to»,
      mobileVersionButtonActive resolve pathname v.«to»)

/-- C1 counterexample: the link item with `customProps = {method:
"versioned"}` is NOT dispatched to the version dropdown — the dispatcher
compares the whole `customProps` value to the string `"versioned"` with
`===`, so an object never matches and the item falls through to the
ordinary link renderer. -/
theorem dispatch_objectMethodVersioned_not_dropdown :
    DocSidebarItem
        (SidebarItem.link "v1.0" "/v1.0"
          (some (CustomProps.objVal (some "versioned"))))
        = Dispatch.linkRenderer
      ∧ DocSidebarItem
          (SidebarItem.link "v1.0" "/v1.0"
            (some (CustomProps.objVal (some "versioned"))))
          ≠ Dispatch.versionDropdown := by
  constructor
  · rfl
  · decide

/-- C1 (amended): the dispatcher delegates a link to the VersionDropdown
component exactly when the item's `customProps` is itself the string
`"versioned"`; in every other case — in particular when `customProps` is
an object whose `method` field is `"versioned"` — the link goes to the
ordinary Link renderer. -/
theorem dispatch_versionDropdown_iff (label href : String)
    (cp : Option CustomProps) :
    (DocSidebarItem (SidebarItem.link label href cp) = Dispatch.versionDropdown
        ↔ cp = some (CustomProps.strVal "versioned"))
      ∧ (cp ≠ some (CustomProps.strVal "versioned") →
          DocSidebarItem (SidebarItem.link label href cp)
            = Dispatch.linkRenderer) := by
  constructor
  · by_cases h : cp = some (CustomProps.strVal "versioned") <;>
      simp [DocSidebarItem, h]
  · intro h
    simp [DocSidebarItem, h]

/-- C2: the active-path matcher returns true on a category iff the
caller-supplied `samePath` predicate matches the active path against the
href of some link reachable by descending through the category's items,
and on a link iff the link's own href matches. -/
theorem isActiveSidebarItem_spec (samePath : String → String → Bool)
    (label lbl href p : String) (cp : Option CustomProps)
    (items : List SidebarItem) (collapsible collapsed : Bool) :
    (isActiveSidebarItem samePath
          (SidebarItem.category label items collapsible collapsed) p = true
        ↔ ∃ h ∈ reachableLinksList items, samePath h p = true)
      ∧ (isActiveSidebarItem samePath (SidebarItem.link lbl href cp) p = true
          ↔ samePath href p = true) := by
  constructor
  · simpa [isActiveSidebarItem, reachableLinks] using
      isActiveList_iff_reachable samePath items p
  · simp [isActiveSidebarItem]

/-- C3: the auto-expand effect moves a collapsed category to expanded
exactly on a rising edge of `isActive` (previous value not `true`), does
nothing when the matcher is or becomes false, and does not fire again
while `isActive` stays true — so a falling edge never changes the
collapsed state and the expansion happens once per activation edge. -/
theorem useAutoExpandActiveCategory_spec :
    (∀ wasActive : Option Bool,
        useAutoExpandActiveCategory true wasActive true
          = (if wasActive = some true then true else false))
      ∧ (∀ (wasActive : Option Bool) (collapsed : Bool),
          useAutoExpandActiveCategory false wasActive collapsed = collapsed)
      ∧ (∀ collapsed : Bool,
          useAutoExpandActiveCategory true (some true) collapsed
            = collapsed) := by
  refine ⟨?_, ?_, ?_⟩ <;> decide

/-- C4: a click on the category header flips `collapsed` exactly once
per click when `collapsible` is true, and leaves it unchanged (the
handler is `undefined`) when `collapsible` is false. -/
theorem categoryHeaderClick_spec :
    (∀ collapsed : Bool, categoryHeaderClick true collapsed = !collapsed)
      ∧ (∀ collapsed : Bool,
          categoryHeaderClick false collapsed = collapsed) := by
  decide

/-- C5: the category's initial state is expanded (`collapsed = false`)
when not collapsible; otherwise expanded when the category contains the
active path, and otherwise the item's own `collapsed` flag. -/
theorem categoryInitialCollapsed_spec (samePath : String → String → Bool)
    (label : String) (items : List SidebarItem) (collapsed : Bool)
    (p : String) :
    categoryInitialCollapsed samePath
        (SidebarItem.category label items false collapsed) p = false
      ∧ categoryInitialCollapsed samePath
          (SidebarItem.category label items true collapsed) p
        = (if isActiveSidebarItem samePath
              (SidebarItem.category label items true collapsed) p
           then false else collapsed) := by
  constructor
  · simp [categoryInitialCollapsed]
  · simp only [categoryInitialCollapsed, Bool.not_true, Bool.false_eq_true,
      if_false]

/-- C6: a category whose `items` list is empty is dispatched to nothing
(`null`), whatever its label and flags; the dispatcher never reads the
active path at all. -/
theorem dispatch_emptyCategory_nothing (label : String)
    (collapsible collapsed : Bool) (_activePath : String) :
    DocSidebarItem (SidebarItem.category label [] collapsible collapsed)
      = Dispatch.nothing := rfl

/-- C7: a link whose `customProps` is missing or `undefined` gets the
method classification `"noop"`, and its rendered class list carries
`"noop"` where the method tag would go. -/
theorem linkMethod_missing_noop (samePath : String → String → Bool)
    (label href p : String) :
    linkMethod none = some "noop"
      ∧ docSidebarItemLinkClasses samePath
          (SidebarItem.link label href none) p
        = ["menu__link", "noop"]
            ++ (if isActiveSidebarItem samePath
                  (SidebarItem.link label href none) p
               then ["menu__link--active"] else []) := by
  constructor
  · rfl
  · simp [docSidebarItemLinkClasses, linkMethod]

/-- C8: an item whose `type` is neither `"category"` nor `"link"` hits
the `switch` statement's default branch and is rendered by the default
link renderer, not dropped and not an error. -/
theorem dispatch_unrecognizedType_link (ty label href : String)
    (cp : Option CustomProps) (_hcat : ty ≠ "category")
    (_hlink : ty ≠ "link") :
    DocSidebarItem (SidebarItem.other ty label href cp)
      = Dispatch.linkRenderer := rfl

/-- Concrete run of `dispatch_unrecognizedType_link` on an item of type
`"doc"`. -/
theorem dispatch_unrecognizedType_link_witness :
    DocSidebarItem (SidebarItem.other "doc" "Overview" "/docs/overview" none)
      = Dispatch.linkRenderer :=
  dispatch_unrecognizedType_link "doc" "Overview" "/docs/overview" none
    (by decide) (by decide)

/-- C9: the mobile branch of the version dropdown renders one button per
version descriptor, in order, and a button carries the active-tab class
iff the second path segment (`split("/")[2]`) of the browser location's
pathname equals the second path segment of that version's base-URL
resolved target. -/
theorem docSidebarVersionDropdownMobile_spec (resolve : String → String)
    (pathname : String) (api_versions : List VersionDescriptor) :
    (docSidebarVersionDropdownMobile resolve pathname api_versions).length
        = api_versions.length
      ∧ docSidebarVersionDropdownMobile resolve pathname api_versions
          = api_versions.map (fun v =>
              (v.label, resolve v.«to»,
                mobileVersionButtonActive resolve pathname v.«to»))
      ∧ ∀ v : VersionDescriptor,
          mobileVersionButtonActive resolve pathname v.«to» = true
            ↔ splitSecond pathname = splitSecond (resolve v.«to») := by
  refine ⟨by simp [docSidebarVersionDropdownMobile], rfl, ?_⟩
  intro v
  simp [mobileVersionButtonActive]

/-- C10: a non-collapsible category header's class list is exactly
`menu__link` plus the local text style — it never contains
`menu__link--active`, however active the category is. -/
theorem categoryHeader_nonCollapsible_notActive
    (samePath : String → String → Bool) (label : String)
    (items : List SidebarItem) (collapsed : Bool) (p : String) :
    docSidebarItemCategoryHeaderClasses samePath
        (SidebarItem.category label items false collapsed) p
      = ["menu__link", "menuLinkText"]
      ∧ (docSidebarItemCategoryHeaderClasses samePath
          (SidebarItem.category label items false collapsed) p).contains
            "menu__link--active" = false := by
  constructor
  · simp [docSidebarItemCategoryHeaderClasses, categoryHeaderClasses]
  · simp [docSidebarItemCategoryHeaderClasses, categoryHeaderClasses,
      List.contains]
